import Mathlib

/-!
Verification of the spine-flutter C facade (spine_flutter.cpp) against its
natural-language specification. Each C function relevant to the claims is
shallowly embedded as a Lean definition; machine pointers become Option
values, the process-wide globals become explicit state, and float color
channels are modelled as rationals. Vendored spine-cpp code that is not part
of this source file (the clipper, the skin attachment-map iterator, Bone
world math, Skeleton getBounds, the JSON/binary deserializers) is modelled
from the specification and marked as such.
-/

namespace SpineFlutter

/-- Block of arena memory: `struct Block { int size; int allocated; ... }`.
The backing byte buffer is not observable through the claims, so only the
size and the high-water allocation mark are modelled. -/
structure Block where
  size : Int
  allocated : Int
  deriving DecidableEq, Repr

/-- Arena state: `class BlockAllocator { int initialBlockSize; Vector<Block> blocks; }`. -/
structure BlockAllocator where
  initialBlockSize : Int
  blocks : List Block
  deriving DecidableEq, Repr

/-- Embeds `BlockAllocator::newBlock(int numBytes)`:
`Block block = {MathUtil::max(initialBlockSize, numBytes), 0, nullptr};`. -/
def BlockAllocator.newBlock (a : BlockAllocator) (numBytes : Int) : Block :=
  { size := max a.initialBlockSize numBytes, allocated := 0 }

/-- Embeds `BlockAllocator::compress()`: sums the sizes of all blocks, frees
their memory, clears the block list and appends `newBlock(totalSize)`. -/
def BlockAllocator.compress (a : BlockAllocator) : BlockAllocator :=
  let totalSize : Int := (a.blocks.map Block.size).sum
  { a with blocks := [a.newBlock totalSize] }

/-- Float RGBA color; channels are modelled as rationals. -/
structure Color where
  r : ℚ
  g : ℚ
  b : ℚ
  a : ℚ
  deriving DecidableEq, Repr

/-- Truncation toward zero of a rational, the semantics of a C++
static_cast from a floating-point value to an integer type: the floor for a
nonnegative value and the negated floor of the negation otherwise. -/
def truncTowardZero (q : ℚ) : Int :=
  if 0 ≤ q then ⌊q⌋ else -⌊-q⌋

/-- C++ `static_cast<uint8_t>` applied to a float channel product, kept total
by reducing modulo 256 (an in-range value is unchanged). -/
def toUint8 (q : ℚ) : Nat :=
  (truncTowardZero q).toNat % 256

/-- Embeds lines 731..735 of spine_skeleton_drawable_render: each 8-bit
channel is the truncation toward zero of
skeleton channel * slot channel * attachment channel * 255, and the channels
are packed as `(a << 24) | (r << 16) | (g << 8) | b`. -/
def packColor (skel slotColor attColor : Color) : Nat :=
  let r := toUint8 (skel.r * slotColor.r * attColor.r * 255)
  let g := toUint8 (skel.g * slotColor.g * attColor.g * 255)
  let b := toUint8 (skel.b * slotColor.b * attColor.b * 255)
  let a := toUint8 (skel.a * slotColor.a * attColor.a * 255)
  Nat.lor (Nat.lor (Nat.lor (a <<< 24) (r <<< 16)) (g <<< 8)) b

/-- Region attachment as seen by the render loop. The world vertices are the
8 floats produced by the vendored `computeWorldVertices` (modelled as data),
the uvs are the precomputed UV array, and pageIndex is the atlas page index
of the backing texture region. -/
structure RegionAttachment where
  color : Color
  worldVertices : List ℚ
  uvs : List ℚ
  pageIndex : Int
  deriving DecidableEq, Repr

/-- Mesh attachment as seen by the render loop; worldVerticesLength is
`getWorldVerticesLength()`, triangles is the triangle index array. -/
structure MeshAttachment where
  color : Color
  worldVerticesLength : Nat
  worldVertices : List ℚ
  uvs : List ℚ
  triangles : List Nat
  pageIndex : Int
  deriving DecidableEq, Repr

/-- Closed attachment kinds dispatched on by the render loop; a clipping
attachment is identified by an opaque token, and the kinds that emit nothing
(bounding box, path, point) are collapsed into one constructor. -/
inductive Attachment where
  | region : RegionAttachment → Attachment
  | mesh : MeshAttachment → Attachment
  | clipping : Nat → Attachment
  | boundingBoxPathOrPoint : Attachment
  deriving DecidableEq, Repr

/-- Slot as seen by the render loop: the assigned attachment (possibly
absent), the slot tint color, whether the bound bone is active, and the
configured blend mode of its SlotData. -/
structure Slot where
  attachment : Option Attachment
  color : Color
  boneActive : Bool
  blendMode : Int
  deriving DecidableEq, Repr

/-- Modelled from the spec: the vendored SkeletonClipping state is not part
of this source file; section 4.6 describes it as holding at most one open
clip region, opened by clipStart and ended by clipEnd. Only the identity of
the open clip attachment is observable here. -/
structure SkeletonClipping where
  activeClip : Option Nat
  deriving DecidableEq, Repr

/-- Modelled from the spec: `clipper.clipStart(slot, clip)` opens (or
replaces) the active clip region (section 4.6 step 3c, Clipping case). -/
def SkeletonClipping.clipStart (_c : SkeletonClipping) (clip : Nat) : SkeletonClipping :=
  { activeClip := some clip }

/-- Modelled from the spec: `clipper.clipEnd(slot)` ends any currently open
clip region for this slot (section 4.6 steps 3b and 3g). -/
def SkeletonClipping.clipEndSlot (_c : SkeletonClipping) : SkeletonClipping :=
  { activeClip := none }

/-- Embeds `clipper.isClipping()`. -/
def SkeletonClipping.isClipping (c : SkeletonClipping) : Bool :=
  c.activeClip.isSome

/-- Output triple of the vendored clipper: clipped vertices, uvs and
triangle indices. -/
structure ClipOutput where
  clippedVertices : List ℚ
  clippedUVs : List ℚ
  clippedTriangles : List Nat
  deriving DecidableEq, Repr

/-- Modelled from the spec: `clipper.clipTriangles` (vendored 2D polygon
clipping, section 6) is passed as an abstract function from the open clip
token and the candidate vertices, indices and uvs to the clipped output. -/
abbrev ClipTrianglesFn := Nat → List ℚ → List Nat → List ℚ → ClipOutput

/-- One render command node (`_spine_render_command`); the linked list is
modelled as a Lean list, the packed 32-bit colors as naturals below 2^32. -/
structure RenderCommand where
  positions : List ℚ
  uvs : List ℚ
  colors : List Nat
  numVertices : Nat
  indices : List Nat
  numIndices : Nat
  atlasPage : Int
  blendMode : Int
  deriving DecidableEq, Repr, Inhabited

/-- Embeds lines 737..744: when a clip region is open, run the clipper on
the candidate geometry and replace vertices, counts, uvs and indices with
the clipped output; otherwise pass the candidates through. -/
def applyClip (clipTriangles : ClipTrianglesFn) (st : SkeletonClipping)
    (vertices : List ℚ) (verticesCount : Nat) (uvs : List ℚ)
    (indices : List Nat) (indicesCount : Nat) :
    List ℚ × Nat × List ℚ × List Nat × Nat :=
  match st.activeClip with
  | some clip =>
      let out := clipTriangles clip vertices indices uvs
      (out.clippedVertices, out.clippedVertices.length / 2, out.clippedUVs,
        out.clippedTriangles, out.clippedTriangles.length)
  | none => (vertices, verticesCount, uvs, indices, indicesCount)

/-- Embeds lines 731..760 of spine_skeleton_drawable_render for a Region or
Mesh attachment that was not skipped: pack the color, clip if a clip region
is open, build the command (positions and uvs copied, the packed color
replicated across every vertex, indices copied), and end any open clip for
this slot. -/
def emitSlotCommand (clipTriangles : ClipTrianglesFn) (skelColor : Color)
    (st : SkeletonClipping) (slot : Slot) (attColor : Color)
    (vertices : List ℚ) (verticesCount : Nat) (uvs : List ℚ)
    (indices : List Nat) (indicesCount : Nat) (pageIndex : Int) :
    SkeletonClipping × Option RenderCommand :=
  let color := packColor skelColor slot.color attColor
  let c := applyClip clipTriangles st vertices verticesCount uvs indices indicesCount
  let cmd : RenderCommand :=
    { positions := c.1.take (c.2.1 * 2)
      uvs := c.2.2.1.take (c.2.1 * 2)
      colors := List.replicate c.2.1 color
      numVertices := c.2.1
      indices := c.2.2.2.1
      numIndices := c.2.2.2.2
      atlasPage := pageIndex
      blendMode := slot.blendMode }
  (st.clipEndSlot, some cmd)

/-- Constant quad index pattern established at lines 657..663. -/
def quadIndices : List Nat := [0, 1, 2, 2, 3, 0]

/-- Embeds the body of the render loop (lines 669..761) for one slot of the
draw order, returning the clipper state after the slot and the command
emitted for it, if any. The early no-attachment branch (line 672) is a bare
`continue`; the zero-alpha/inactive-bone branch (lines 675..678) calls
`clipper.clipEnd(slot)` before continuing. -/
def renderSlot (clipTriangles : ClipTrianglesFn) (skelColor : Color)
    (st : SkeletonClipping) (slot : Slot) : SkeletonClipping × Option RenderCommand :=
  match slot.attachment with
  | none => (st, none)
  | some att =>
      if slot.color.a = 0 ∨ slot.boneActive = false then
        (st.clipEndSlot, none)
      else
        match att with
        | Attachment.region r =>
            if r.color.a = 0 then (st.clipEndSlot, none)
            else emitSlotCommand clipTriangles skelColor st slot r.color
                r.worldVertices 4 r.uvs quadIndices 6 r.pageIndex
        | Attachment.mesh m =>
            if m.color.a = 0 then (st.clipEndSlot, none)
            else emitSlotCommand clipTriangles skelColor st slot m.color
                m.worldVertices (m.worldVerticesLength / 2) m.uvs
                m.triangles m.triangles.length m.pageIndex
        | Attachment.clipping clip => (st.clipStart clip, none)
        | Attachment.boundingBoxPathOrPoint => (st, none)

/-- Threads the clipper state through the slots of the draw order, collecting
the emitted commands in order (the singly linked command list of the C code). -/
def renderLoop (clipTriangles : ClipTrianglesFn) (skelColor : Color) :
    SkeletonClipping → List Slot → List RenderCommand
  | _, [] => []
  | st, slot :: rest =>
      match renderSlot clipTriangles skelColor st slot with
      | (st2, none) => renderLoop clipTriangles skelColor st2 rest
      | (st2, some cmd) => cmd :: renderLoop clipTriangles skelColor st2 rest

/-- Drawable state observable by the render pipeline: the skeleton tint and
the current draw order. -/
structure SkeletonDrawable where
  skeletonColor : Color
  drawOrder : List Slot
  deriving DecidableEq, Repr

/-- Embeds spine_skeleton_drawable_render (lines 649..765). The clipper
state is closed at entry (the previous call ended with `clipper.clipEnd()`
at line 762 and the drawable is created with a fresh clipper); the trailing
`clipper.clipEnd()` has no observable effect on the returned command list. -/
def spine_skeleton_drawable_render (clipTriangles : ClipTrianglesFn)
    (drawable : SkeletonDrawable) : List RenderCommand :=
  renderLoop clipTriangles drawable.skeletonColor { activeClip := none } drawable.drawOrder

/-- Attachment tint color resolved by the render loop, defined exactly for
the Region and Mesh kinds it emits commands for. -/
def slotAttachmentColor (slot : Slot) : Option Color :=
  match slot.attachment with
  | some (Attachment.region r) => some r.color
  | some (Attachment.mesh m) => some m.color
  | _ => none

/-- Opaque white color used by concrete test inputs. -/
def whiteColor : Color := { r := 1, g := 1, b := 1, a := 1 }

/-- Attachment tint (1/2, 1/2, 1/2, 1) named by the color-packing claim. -/
def halfColor : Color := { r := 1/2, g := 1/2, b := 1/2, a := 1 }

/-- Trivial concrete clipper function used by concrete test inputs. -/
def trivialClipFn : ClipTrianglesFn :=
  fun _ _ _ _ => { clippedVertices := [], clippedUVs := [], clippedTriangles := [] }

/-- Concrete slot with no assigned attachment. -/
def noAttachmentSlot : Slot :=
  { attachment := none, color := whiteColor, boneActive := true, blendMode := 0 }

/-- Concrete slot whose tint alpha is zero (bone active, attachment present). -/
def zeroAlphaSlot : Slot :=
  { attachment := some Attachment.boundingBoxPathOrPoint
    color := { r := 1, g := 1, b := 1, a := 0 }
    boneActive := true
    blendMode := 0 }

/-- Concrete region attachment with the half-gray tint of the claim. -/
def sampleRegion : RegionAttachment :=
  { color := halfColor
    worldVertices := [0, 0, 1, 0, 1, 1, 0, 1]
    uvs := [0, 0, 1, 0, 1, 1, 0, 1]
    pageIndex := 0 }

/-- Concrete slot carrying sampleRegion. -/
def sampleRegionSlot : Slot :=
  { attachment := some (Attachment.region sampleRegion)
    color := whiteColor
    boneActive := true
    blendMode := 0 }

/-- Concrete drawable whose draw order holds the single sampleRegionSlot. -/
def sampleDrawable : SkeletonDrawable :=
  { skeletonColor := whiteColor, drawOrder := [sampleRegionSlot] }

/-- Render command produced for sampleRegionSlot by the render pipeline. -/
def sampleCommand : RenderCommand :=
  { positions := [0, 0, 1, 0, 1, 1, 0, 1]
    uvs := [0, 0, 1, 0, 1, 1, 0, 1]
    colors := List.replicate 4 (packColor whiteColor whiteColor halfColor)
    numVertices := 4
    indices := quadIndices
    numIndices := 6
    atlasPage := 0
    blendMode := 0 }

/-- Atlas handle struct `_spine_atlas`: the parsed atlas object (an opaque
token, absent on parse failure), the duplicated image page path strings, and
the parse error string. The numImagePaths field is the length of the path
list. -/
structure AtlasHandle where
  atlas : Option Nat
  imagePaths : List String
  error : Option String
  deriving DecidableEq, Repr

/-- Result struct `_spine_skeleton_data_result`: a SkeletonData token
(absent on failure) and an error string (absent unless the deserializer
recorded one). The C functions always return a freshly calloc-ed, hence
non-null and zero-initialized, struct; the embedding therefore returns the
struct itself rather than an optional one. -/
structure SkeletonDataResult where
  skeletonData : Option Nat
  error : Option String
  deriving DecidableEq, Repr

/-- Process-wide state of the vendored Bone class. Modelled from the spec:
`Bone::setYDown` and `Bone::isYDown` read and write one process-wide flag
(section 4.11). -/
structure BoneGlobals where
  yDown : Bool
  deriving DecidableEq, Repr

/-- Modelled from the spec: `Bone::setYDown(flag)` overwrites the
process-wide Y-down flag. -/
def setYDown (_g : BoneGlobals) (flag : Bool) : BoneGlobals :=
  { yDown := flag }

/-- Modelled from the spec: the vendored JSON deserializer
`SkeletonJson::readSkeletonData` bound to a parsed atlas, abstracted as a
function from the atlas token and document text to a SkeletonData token
(absent on failure) and the recorded error string (absent when empty). -/
abbrev JsonParseFn := Nat → String → Option Nat × Option String

/-- Modelled from the spec: the vendored binary deserializer
`SkeletonBinary::readSkeletonData`, abstracted like JsonParseFn but over the
byte array and its length. -/
abbrev BinaryParseFn := Nat → List Nat → Int → Option Nat × Option String

/-- Embeds spine_skeleton_data_load_json (lines 310..324): callocs the
result, sets the process-wide Y-down flag to true, then validates the atlas
handle, its parsed atlas object and the data pointer, returning the zeroed
result on any bad input and the parse outcome otherwise. -/
def spine_skeleton_data_load_json (parse : JsonParseFn) (g : BoneGlobals)
    (atlas : Option AtlasHandle) (skeletonData : Option String) :
    BoneGlobals × SkeletonDataResult :=
  (setYDown g true,
    match atlas with
    | none => { skeletonData := none, error := none }
    | some a =>
        match a.atlas with
        | none => { skeletonData := none, error := none }
        | some parsedAtlas =>
            match skeletonData with
            | none => { skeletonData := none, error := none }
            | some text =>
                let parsed := parse parsedAtlas text
                { skeletonData := parsed.1, error := parsed.2 })

/-- Embeds spine_skeleton_data_load_binary (lines 326..341): like the JSON
loader but over a byte pointer and length, additionally rejecting a
non-positive length. -/
def spine_skeleton_data_load_binary (parse : BinaryParseFn) (g : BoneGlobals)
    (atlas : Option AtlasHandle) (skeletonData : Option (List Nat)) (length : Int) :
    BoneGlobals × SkeletonDataResult :=
  (setYDown g true,
    match atlas with
    | none => { skeletonData := none, error := none }
    | some a =>
        match a.atlas with
        | none => { skeletonData := none, error := none }
        | some parsedAtlas =>
            match skeletonData with
            | none => { skeletonData := none, error := none }
            | some bytes =>
                if length ≤ 0 then { skeletonData := none, error := none }
                else
                  let parsed := parse parsedAtlas bytes length
                  { skeletonData := parsed.1, error := parsed.2 })

/-- Bounds struct `_spine_bounds` over rational fields. -/
structure Bounds where
  x : ℚ
  y : ℚ
  width : ℚ
  height : ℚ
  deriving DecidableEq, Repr

/-- Skeleton instance as observed by getBounds. Modelled from the spec: the
vendored `Skeleton::getBounds` computes the axis-aligned bounding box of the
current world-space vertices (section 4.10); that box is modelled as data. -/
structure SkeletonObj where
  bounds : Bounds
  deriving DecidableEq, Repr

/-- Embeds spine_skeleton_get_bounds (lines 1419..1426): the result struct
is obtained with `malloc`, whose contents are indeterminate, modelled by the
mallocContents argument. For a null skeleton the struct is returned without
any field having been written; otherwise `Skeleton::getBounds` fills all
four fields. -/
def spine_skeleton_get_bounds (mallocContents : Bounds) (skeleton : Option SkeletonObj) :
    Bounds :=
  match skeleton with
  | none => mallocContents
  | some s => s.bounds

/-- Embeds spine_atlas_get_image_path (lines 286..289): null handle gives a
null path; otherwise `imagePaths[index]` is read with no bounds check, so an
out-of-range index reads past the array, modelled by the heapRead argument
giving the indeterminate memory contents there. -/
def spine_atlas_get_image_path (heapRead : Int → Option String)
    (atlas : Option AtlasHandle) (index : Int) : Option String :=
  match atlas with
  | none => none
  | some a =>
      if h : 0 ≤ index ∧ index.toNat < a.imagePaths.length then
        some (a.imagePaths.get ⟨index.toNat, h.2⟩)
      else heapRead index

/-- Bone instance observables. Modelled from the spec: the vendored Bone
exposes the derived read-only world-rotation views of the world matrix
(worldRotationX, worldRotationY, section 4.11) and, separately, the
rotation-conversion operation worldToLocalRotation; these are distinct
functions of the bone state and are modelled as independent fields. -/
structure BoneObj where
  worldRotationX : ℚ
  worldRotationY : ℚ
  worldToLocalRotationY : ℚ
  deriving DecidableEq, Repr

/-- Embeds spine_bone_get_world_rotation_x (lines 2384..2388): returns
`Bone::getWorldRotationX`, 0 for a null bone. -/
def spine_bone_get_world_rotation_x (bone : Option BoneObj) : ℚ :=
  match bone with
  | none => 0
  | some b => b.worldRotationX

/-- Embeds spine_bone_get_world_rotation_y (lines 2390..2394): the body
returns `Bone::getWorldToLocalRotationY()`, not `Bone::getWorldRotationY`. -/
def spine_bone_get_world_rotation_y (bone : Option BoneObj) : ℚ :=
  match bone with
  | none => 0
  | some b => b.worldToLocalRotationY

/-- Concrete bone on which the world-rotation-Y view and the world-to-local
rotation conversion differ. -/
def sampleBone : BoneObj :=
  { worldRotationX := 10, worldRotationY := 20, worldToLocalRotationY := 30 }

/-- Event kinds of `spine_event_type`; `dispose` embeds
SPINE_EVENT_TYPE_DISPOSE. -/
inductive EventType where
  | start
  | interrupt
  | ended
  | complete
  | dispose
  | userEvent
  deriving DecidableEq, Repr

/-- One buffered animation-state event (`AnimationStateEvent`): its kind,
the originating track entry token and the optional domain event token. -/
structure AnimationStateEventRec where
  type : EventType
  entry : Nat
  event : Option Nat
  deriving DecidableEq, Repr

/-- Event listener buffer (`EventListener::events`). -/
structure EventListenerObj where
  events : List AnimationStateEventRec
  deriving DecidableEq, Repr

/-- Embeds spine_animation_state_events_get_event_type (lines 1012..1018):
null handle, negative index and index at or past the buffered count all give
SPINE_EVENT_TYPE_DISPOSE; an in-range index gives that event record kind. -/
def spine_animation_state_events_get_event_type (events : Option EventListenerObj)
    (index : Int) : EventType :=
  match events with
  | none => EventType.dispose
  | some es =>
      if index < 0 then EventType.dispose
      else
        if h : index.toNat < es.events.length then (es.events.get ⟨index.toNat, h⟩).type
        else EventType.dispose

/-- One (slot index, attachment name, attachment token) triple stored in a
skin (`_spine_skin_entry`). -/
structure SkinEntryRec where
  slotIndex : Int
  name : String
  attachment : Nat
  deriving DecidableEq, Repr

/-- Modelled from the spec: the vendored skin attachment-map iterator
(`Skin::AttachmentMap::Entries`) enumerates the (slot index, name,
attachment) triples of the skin (section 4.14); the triples are modelled as
a list in enumeration order with a cursor. Following the hasNext/next
iterator contract the C call sites of this file rely on, hasNext reports
whether a triple remains without consuming it and next returns the current
triple and advances the cursor. -/
structure SkinEntriesIter where
  entries : List SkinEntryRec
  pos : Nat
  deriving DecidableEq, Repr

/-- Modelled from the spec: `mapEntries.hasNext()` does not consume. -/
def SkinEntriesIter.hasNext (it : SkinEntriesIter) : Bool :=
  it.pos < it.entries.length

/-- Modelled from the spec: `mapEntries.next()` returns the current triple
and advances. -/
def SkinEntriesIter.next (it : SkinEntriesIter) : Option SkinEntryRec × SkinEntriesIter :=
  (it.entries.get? it.pos, { it with pos := it.pos + 1 })

/-- Embeds the counting loop of spine_skin_get_entries (line 2988):
`while (mapEntries.hasNext()) entries->numEntries++;`. The loop body never
advances the iterator, so the loop is given explicit fuel; a result of none
means the fuel ran out with the loop still running. -/
def skinEntriesCountLoop (fuel : Nat) (it : SkinEntriesIter) (numEntries : Nat) :
    Option Nat :=
  match fuel with
  | 0 => none
  | Nat.succ f =>
      if it.hasNext then skinEntriesCountLoop f it (numEntries + 1)
      else some numEntries

/-- Concrete skin-entries iterator over a single stored triple. -/
def singleEntryIter : SkinEntriesIter :=
  { entries := [{ slotIndex := 0, name := "head", attachment := 7 }], pos := 0 }

/-- Concrete atlas handle with a parsed atlas and one image page path. -/
def sampleAtlas : AtlasHandle :=
  { atlas := some 0, imagePaths := ["page.png"], error := none }

end SpineFlutter

namespace SpineFlutter

/-- C5: for every BlockAllocator state, after compress() the allocator
contains exactly one block, that block has size equal to the maximum of the
sum of all prior block sizes and the initial block size, and its allocation
mark is zero. -/
theorem compress_single_block_spec (a : BlockAllocator) :
    (a.compress).blocks =
      [{ size := max ((a.blocks.map Block.size).sum) a.initialBlockSize,
         allocated := 0 }] := by
  simp [BlockAllocator.compress, BlockAllocator.newBlock, max_comm]

/-- C1 (counterexample): with a clip region open, the early no-attachment
branch of the render loop body leaves the clip open for the skipped slot; it
does not close the active clip region, refuting the claim that both skip
branches unconditionally close it. -/
theorem renderSlot_no_attachment_keeps_clip_open :
    noAttachmentSlot.attachment = none ∧
      (renderSlot trivialClipFn whiteColor { activeClip := some 0 } noAttachmentSlot).1.activeClip
        = some 0 :=
  ⟨rfl, rfl⟩

/-- C1 (amended): in the render loop body, the early no-attachment branch
advances to the next slot leaving the clipper state untouched, while the
zero-alpha/inactive-bone branch closes the active clip region for the
skipped slot before advancing. -/
theorem renderSlot_skip_branches_clip (clipTriangles : ClipTrianglesFn)
    (skelColor : Color) (st : SkeletonClipping) (slot : Slot) :
    (slot.attachment = none → renderSlot clipTriangles skelColor st slot = (st, none)) ∧
    (∀ att, slot.attachment = some att →
      (slot.color.a = 0 ∨ slot.boneActive = false) →
      (renderSlot clipTriangles skelColor st slot).1.activeClip = none) := by
  constructor
  · intro h
    simp [renderSlot, h]
  · intro att h hskip
    simp only [renderSlot, h]
    rw [if_pos hskip]
    rfl

/-- Witness for the amended C1 theorem at concrete inputs: a slot with no
attachment leaves an open clip region open, and a zero-alpha slot closes it. -/
theorem renderSlot_skip_branches_clip_witness :
    renderSlot trivialClipFn whiteColor { activeClip := some 1 } noAttachmentSlot
        = ({ activeClip := some 1 }, none) ∧
      (renderSlot trivialClipFn whiteColor { activeClip := some 1 } zeroAlphaSlot).1.activeClip
        = none :=
  ⟨(renderSlot_skip_branches_clip trivialClipFn whiteColor { activeClip := some 1 }
      noAttachmentSlot).1 rfl,
    (renderSlot_skip_branches_clip trivialClipFn whiteColor { activeClip := some 1 }
      zeroAlphaSlot).2 Attachment.boundingBoxPathOrPoint rfl (Or.inl rfl)⟩

/-- Helper: a command produced by emitSlotCommand replicates the packed
color across exactly its vertex count. -/
theorem emitSlotCommand_colors (clipTriangles : ClipTrianglesFn) (skelColor : Color)
    (st : SkeletonClipping) (slot : Slot) (attColor : Color)
    (vertices : List ℚ) (verticesCount : Nat) (uvs : List ℚ)
    (indices : List Nat) (indicesCount : Nat) (pageIndex : Int)
    (st2 : SkeletonClipping) (cmd : RenderCommand)
    (h : emitSlotCommand clipTriangles skelColor st slot attColor vertices verticesCount
        uvs indices indicesCount pageIndex = (st2, some cmd)) :
    cmd.colors = List.replicate cmd.numVertices (packColor skelColor slot.color attColor) := by
  simp only [emitSlotCommand] at h
  obtain ⟨h1, h2⟩ := Prod.mk.injEq .. ▸ h
  obtain rfl := Option.some.injEq .. ▸ h2
  rfl

/-- Helper: a command emitted by the render loop body replicates the packed
color, built from the skeleton, slot and attachment tints, across its
vertices. -/
theorem renderSlot_colors (clipTriangles : ClipTrianglesFn) (skelColor : Color)
    (st : SkeletonClipping) (slot : Slot) (st2 : SkeletonClipping) (cmd : RenderCommand)
    (h : renderSlot clipTriangles skelColor st slot = (st2, some cmd)) :
    ∃ attColor, slotAttachmentColor slot = some attColor ∧
      cmd.colors = List.replicate cmd.numVertices (packColor skelColor slot.color attColor) := by
  obtain ⟨oatt, scolor, sactive, sblend⟩ := slot
  cases oatt with
  | none => simp [renderSlot] at h
  | some att =>
      simp only [renderSlot] at h
      by_cases hskip : scolor.a = 0 ∨ sactive = false
      · rw [if_pos hskip] at h
        simp at h
      · rw [if_neg hskip] at h
        cases att with
        | region r =>
            dsimp only at h
            by_cases hac : r.color.a = 0
            · rw [if_pos hac] at h
              simp at h
            · rw [if_neg hac] at h
              exact ⟨r.color, rfl, emitSlotCommand_colors _ _ _ _ _ _ _ _ _ _ _ _ _ h⟩
        | mesh m =>
            dsimp only at h
            by_cases hac : m.color.a = 0
            · rw [if_pos hac] at h
              simp at h
            · rw [if_neg hac] at h
              exact ⟨m.color, rfl, emitSlotCommand_colors _ _ _ _ _ _ _ _ _ _ _ _ _ h⟩
        | clipping c => simp at h
        | boundingBoxPathOrPoint => simp at h

/-- Helper: every command collected by the render loop over a slot list
comes from some slot of that list and replicates its packed color. -/
theorem renderLoop_colors (clipTriangles : ClipTrianglesFn) (skelColor : Color)
    (slots : List Slot) :
    ∀ (st : SkeletonClipping) (cmd : RenderCommand),
      cmd ∈ renderLoop clipTriangles skelColor st slots →
      ∃ slot ∈ slots, ∃ attColor, slotAttachmentColor slot = some attColor ∧
        cmd.colors = List.replicate cmd.numVertices
          (packColor skelColor slot.color attColor) := by
  induction slots with
  | nil =>
      intro st cmd h
      simp [renderLoop] at h
  | cons slot rest ih =>
      intro st cmd h
      rw [renderLoop] at h
      rcases hr : renderSlot clipTriangles skelColor st slot with ⟨stNext, ocmd⟩
      rw [hr] at h
      cases ocmd with
      | none =>
          obtain ⟨s, hs, hrest⟩ := ih stNext cmd h
          exact ⟨s, List.mem_cons_of_mem _ hs, hrest⟩
      | some c =>
          rcases List.mem_cons.mp h with hc | hmem
          · subst hc
            obtain ⟨attColor, hatt, hcol⟩ := renderSlot_colors _ _ _ _ _ _ hr
            exact ⟨slot, List.mem_cons_self _ _, attColor, hatt, hcol⟩
          · obtain ⟨s, hs, hrest⟩ := ih stNext cmd hmem
            exact ⟨s, List.mem_cons_of_mem _ hs, hrest⟩

/-- Helper: numerical evaluation of the half-intensity channel. -/
theorem toUint8_half_eval : toUint8 ((1 : ℚ) * 1 * (1 / 2) * 255) = 127 := by
  have hq : ((1 : ℚ) * 1 * (1 / 2) * 255) = 255 / 2 := by norm_num
  have hfloor : ⌊(255 : ℚ) / 2⌋ = 127 := by norm_num
  rw [toUint8, truncTowardZero, hq, if_pos (by norm_num : (0 : ℚ) ≤ 255 / 2), hfloor]
  decide

/-- Helper: numerical evaluation of the full-intensity channel. -/
theorem toUint8_one_eval : toUint8 ((1 : ℚ) * 1 * 1 * 255) = 255 := by
  have hq : ((1 : ℚ) * 1 * 1 * 255) = 255 := by norm_num
  have hfloor : ⌊(255 : ℚ)⌋ = 255 := by norm_num
  rw [toUint8, truncTowardZero, hq, if_pos (by norm_num : (0 : ℚ) ≤ 255), hfloor]
  decide

/-- C3: every command emitted by spine_skeleton_drawable_render comes from a
Region or Mesh slot of the draw order, and its per-vertex color array is the
packed color, computed per channel as truncation toward zero of
skeleton channel * slot channel * attachment channel * 255 and packed as
`(a << 24) | (r << 16) | (g << 8) | b`, replicated across every vertex of
the command; in particular, with skeleton tint (1,1,1,1), slot tint
(1,1,1,1) and attachment tint (1/2,1/2,1/2,1), the red, green and blue
channels each equal 127 and alpha equals 255. -/
theorem render_packed_color_replicated :
    (∀ (clipTriangles : ClipTrianglesFn) (drawable : SkeletonDrawable)
        (cmd : RenderCommand),
      cmd ∈ spine_skeleton_drawable_render clipTriangles drawable →
      ∃ slot ∈ drawable.drawOrder, ∃ attColor,
        slotAttachmentColor slot = some attColor ∧
        cmd.colors = List.replicate cmd.numVertices
          (packColor drawable.skeletonColor slot.color attColor)) ∧
    toUint8 ((1 : ℚ) * 1 * (1 / 2) * 255) = 127 ∧
    toUint8 ((1 : ℚ) * 1 * 1 * 255) = 255 ∧
    packColor whiteColor whiteColor halfColor =
      Nat.lor (Nat.lor (Nat.lor (255 <<< 24) (127 <<< 16)) (127 <<< 8)) 127 := by
  refine ⟨?_, toUint8_half_eval, toUint8_one_eval, ?_⟩
  · intro clipTriangles drawable cmd h
    exact renderLoop_colors clipTriangles drawable.skeletonColor drawable.drawOrder _ cmd h
  · simp only [packColor, whiteColor, halfColor]
    rw [toUint8_half_eval, toUint8_one_eval]

/-- Witness for the C3 theorem: the single command rendered for a concrete
draw order holding one region slot with half-gray attachment tint carries
the replicated packed color. -/
theorem render_packed_color_replicated_witness :
    ∃ slot ∈ sampleDrawable.drawOrder, ∃ attColor,
      slotAttachmentColor slot = some attColor ∧
      sampleCommand.colors = List.replicate sampleCommand.numVertices
        (packColor sampleDrawable.skeletonColor slot.color attColor) :=
  render_packed_color_replicated.1 trivialClipFn sampleDrawable sampleCommand
    (by rw [show spine_skeleton_drawable_render trivialClipFn sampleDrawable
          = [sampleCommand] from rfl]
        exact List.mem_singleton_self _)

/-- C4: after any call to either SkeletonData loader — regardless of the
validity of the atlas handle, its parsed atlas object, the data argument or
(for binary) the length, and regardless of parse outcome — the process-wide
Y-down flag is true, even when it was previously explicitly false. -/
theorem load_skeleton_data_forces_ydown (jsonParse : JsonParseFn)
    (binaryParse : BinaryParseFn) (g : BoneGlobals) (atlas : Option AtlasHandle)
    (text : Option String) (bytes : Option (List Nat)) (length : Int) :
    (spine_skeleton_data_load_json jsonParse g atlas text).1.yDown = true ∧
    (spine_skeleton_data_load_binary binaryParse g atlas bytes length).1.yDown = true :=
  ⟨rfl, rfl⟩

/-- C6: calling the binary loader with an absent atlas handle, an atlas
whose parsed atlas object is absent, an absent data pointer, or a length at
most 0 yields a (freshly calloc-ed, hence non-null) result whose
SkeletonData field and error field are both absent. -/
theorem load_binary_bad_input_silent (parse : BinaryParseFn) (g : BoneGlobals)
    (atlas : Option AtlasHandle) (bytes : Option (List Nat)) (length : Int)
    (h : atlas = none ∨ (∃ a, atlas = some a ∧ a.atlas = none) ∨ bytes = none ∨ length ≤ 0) :
    (spine_skeleton_data_load_binary parse g atlas bytes length).2
      = { skeletonData := none, error := none } := by
  rcases h with rfl | ⟨a, rfl, ha⟩ | rfl | hlen
  · rfl
  · simp [spine_skeleton_data_load_binary, ha]
  · cases atlas with
    | none => rfl
    | some a =>
        rcases ha : a.atlas with _ | pa
        · simp [spine_skeleton_data_load_binary, ha]
        · simp [spine_skeleton_data_load_binary, ha]
  · cases atlas with
    | none => rfl
    | some a =>
        rcases ha : a.atlas with _ | pa
        · simp [spine_skeleton_data_load_binary, ha]
        · cases bytes with
          | none => simp [spine_skeleton_data_load_binary, ha]
          | some bs => simp [spine_skeleton_data_load_binary, ha, hlen]

/-- Witness for the C6 theorem: a well-formed atlas and data pointer with
length 0 give a result with both fields absent, even under a parse function
that would have succeeded. -/
theorem load_binary_bad_input_silent_witness :
    (spine_skeleton_data_load_binary (fun _ _ _ => (some 1, none)) { yDown := false }
        (some sampleAtlas) (some [1, 2, 3]) 0).2
      = { skeletonData := none, error := none } :=
  load_binary_bad_input_silent (fun _ _ _ => (some 1, none)) { yDown := false }
    (some sampleAtlas) (some [1, 2, 3]) 0 (Or.inr (Or.inr (Or.inr le_rfl)))

/-- C7 (code evaluated at the failing input): for a null skeleton handle the
bounds struct is returned exactly as malloc provided it — here holding
(1, 2, 3, 4) — with no field written, so the fields are not all zero as the
claim requires. -/
theorem get_bounds_null_skeleton_returns_malloc_contents :
    spine_skeleton_get_bounds { x := 1, y := 2, width := 3, height := 4 } none
        = { x := 1, y := 2, width := 3, height := 4 } ∧
      ({ x := 1, y := 2, width := 3, height := 4 } : Bounds)
        ≠ { x := 0, y := 0, width := 0, height := 0 } :=
  ⟨rfl, by decide⟩

/-- C8 (counterexample): on an atlas handle with one image path, index 5 is
read with no bounds check, so the call returns whatever memory lies past the
path array — here a non-absent string — not the absent path the claim
requires for an out-of-range index. -/
theorem get_image_path_out_of_range_not_absent :
    spine_atlas_get_image_path (fun _ => some "stale") (some sampleAtlas) 5
      = some "stale" := by
  rfl

/-- C8 (amended): spine_atlas_get_image_path returns an absent path when the
atlas handle is absent, and for an index within [0, numImagePaths) on a
non-absent handle returns that page image path; an out-of-range index is
read without any bounds check, so its result is unspecified memory. -/
theorem get_image_path_amended (heapRead : Int → Option String)
    (atlas : Option AtlasHandle) (index : Int) :
    (atlas = none → spine_atlas_get_image_path heapRead atlas index = none) ∧
    (∀ a, atlas = some a → ∀ h : 0 ≤ index ∧ index.toNat < a.imagePaths.length,
      spine_atlas_get_image_path heapRead atlas index
        = some (a.imagePaths.get ⟨index.toNat, h.2⟩)) := by
  constructor
  · intro h
    subst h
    rfl
  · intro a ha hin
    subst ha
    simp only [spine_atlas_get_image_path]
    rw [dif_pos hin]

/-- Witness for the amended C8 theorem at concrete inputs: an absent handle
gives an absent path and index 0 on a one-page atlas gives that page path. -/
theorem get_image_path_amended_witness :
    spine_atlas_get_image_path (fun _ => none) none 0 = none ∧
    spine_atlas_get_image_path (fun _ => none) (some sampleAtlas) 0
      = some (sampleAtlas.imagePaths.get ⟨(0 : Int).toNat, by decide⟩) :=
  ⟨(get_image_path_amended (fun _ => none) none 0).1 rfl,
    (get_image_path_amended (fun _ => none) (some sampleAtlas) 0).2 sampleAtlas rfl
      ⟨by decide, by decide⟩⟩

/-- C9 (code evaluated at the failing input): on a bone whose world-rotation
views and rotation conversions differ, the Y accessor returns the
world-to-local rotation conversion (here 30), not the world-rotation-Y view
of the world matrix (here 20), whereas the X accessor does return the
world-rotation-X view. -/
theorem get_world_rotation_y_returns_wrong_view :
    spine_bone_get_world_rotation_x (some sampleBone) = sampleBone.worldRotationX ∧
    spine_bone_get_world_rotation_y (some sampleBone) = sampleBone.worldToLocalRotationY ∧
    spine_bone_get_world_rotation_y (some sampleBone) ≠ sampleBone.worldRotationY :=
  ⟨rfl, rfl, by decide⟩

/-- C10: the event-type accessor is total over the embedded state and
returns the dispose event kind — a member of the closed event-kind
enumeration, not a distinct error signal — whenever the handle is absent,
the index is negative, or the index is not below the number of buffered
events. -/
theorem get_event_type_total_dispose (events : Option EventListenerObj) (index : Int)
    (h : events = none ∨ index < 0 ∨
      ∀ es, events = some es → (es.events.length : Int) ≤ index) :
    spine_animation_state_events_get_event_type events index = EventType.dispose := by
  rcases h with rfl | hneg | hout
  · rfl
  · cases events with
    | none => rfl
    | some es => simp [spine_animation_state_events_get_event_type, hneg]
  · cases events with
    | none => rfl
    | some es =>
        have hlen := hout es rfl
        by_cases hneg : index < 0
        · simp [spine_animation_state_events_get_event_type, hneg]
        · have hge : 0 ≤ index := not_lt.mp hneg
          have hnotlt : ¬ index.toNat < es.events.length := by
            intro hlt
            have htn := Int.toNat_of_nonneg hge
            omega
          simp [spine_animation_state_events_get_event_type, hneg, hnotlt]

/-- Witness for the C10 theorem: index 3 on a buffer holding one event gives
the dispose kind. -/
theorem get_event_type_total_dispose_witness :
    spine_animation_state_events_get_event_type
        (some { events := [{ type := EventType.start, entry := 0, event := none }] }) 3
      = EventType.dispose :=
  get_event_type_total_dispose
    (some { events := [{ type := EventType.start, entry := 0, event := none }] }) 3
    (Or.inr (Or.inr (fun es hes => by cases hes; decide)))

/-- C2 (divergence of the counting loop): whenever the iterator still has a
triple — in particular at the start of enumeration of any skin holding at
least one attachment — the counting loop of spine_skin_get_entries never
terminates, because its body only increments the count and never advances
the iterator: for every fuel bound the loop is still running. -/
theorem skin_entries_count_loop_diverges (fuel : Nat) (it : SkinEntriesIter)
    (numEntries : Nat) (h : it.hasNext = true) :
    skinEntriesCountLoop fuel it numEntries = none := by
  induction fuel generalizing numEntries with
  | zero => rfl
  | succ f ih =>
      rw [skinEntriesCountLoop, if_pos h]
      exact ih _

/-- Witness for the C2 divergence theorem: on a skin with one stored triple
the counting loop is still running after 1000 iterations. -/
theorem skin_entries_count_loop_diverges_witness :
    skinEntriesCountLoop 1000 singleEntryIter 0 = none :=
  skin_entries_count_loop_diverges 1000 singleEntryIter 0 rfl

end SpineFlutter
